import Mathlib

/-!
A shallow embedding of `guide.go`.

The Go file declares a handful of package-level variables, one pointer to an
integer, and a few small functions.  The embedding keeps the package-level
variables and the bytes written to standard output in an explicit `State`,
passes that state through every function that has an effect, and represents a
run-time panic by an `Outcome` that records the state at the moment of the
panic.

Go's `int` is modelled by `Int`: the program compares integers with constants
and stores constants, it performs no arithmetic, so no overflow can occur.
-/

namespace Guide

/-! ## Values and types -/

/-- The package-level variables of type `int` (guide.go 87, 89, 93-97).  They are
the only integers whose address the program can take. -/
inductive IntVar where
  | intAllocation
  | theAnswer
  | partyLikeIts
  | y2k
  | yearWeMakeContact
  deriving DecidableEq, Repr

/-- The types that occur in the declarations of guide.go. -/
inductive GoType where
  | int
  | string
  | bool
  | pointerToInt
  deriving DecidableEq, Repr

/-- A Go value of one of these types.  A pointer is either nil (`ptr none`) or
the address of an integer variable. -/
inductive Value where
  | int (n : Int)
  | str (s : String)
  | bool (b : Bool)
  | ptr (target : Option IntVar)
  deriving DecidableEq, Repr

/-- The value `nil` of Go: the pointer that points to nothing. -/
def Value.nil : Value := Value.ptr none

/-- The zero value Go gives to a variable declared without an initialiser. -/
def zeroValue : GoType → Value
  | GoType.int => Value.int 0
  | GoType.string => Value.str ""
  | GoType.bool => Value.bool false
  | GoType.pointerToInt => Value.ptr none

/-! ## Program state -/

/-- The package-level variables of guide.go and the text written to standard
output so far. -/
structure State where
  intAllocation : Int
  dinnerForOne : String
  theAnswer : Int
  partyLikeIts : Int
  y2k : Int
  yearWeMakeContact : Int
  pointerToTheAnswer : Option IntVar
  stdout : String
  deriving DecidableEq, Repr

/-- The state after package initialisation (guide.go 87-97 and 143): variables
with an initialiser hold it, `intAllocation` and `pointerToTheAnswer` have none
and hold the zero value of their type; nothing has been printed. -/
def initialState : State where
  intAllocation := 0
  dinnerForOne := "The same procedure as every year"
  theAnswer := 42
  partyLikeIts := 1999
  y2k := 2000
  yearWeMakeContact := 2001
  pointerToTheAnswer := none
  stdout := ""

/-- The names of the package-level variables. -/
inductive Var where
  | intAllocation
  | dinnerForOne
  | theAnswer
  | partyLikeIts
  | y2k
  | yearWeMakeContact
  | pointerToTheAnswer
  deriving DecidableEq, Repr

/-- The declared (or inferred) type of each package-level variable. -/
def Var.type : Var → GoType
  | Var.intAllocation => GoType.int
  | Var.dinnerForOne => GoType.string
  | Var.theAnswer => GoType.int
  | Var.partyLikeIts => GoType.int
  | Var.y2k => GoType.int
  | Var.yearWeMakeContact => GoType.int
  | Var.pointerToTheAnswer => GoType.pointerToInt

/-- The value a package-level variable holds in a state. -/
def State.read (s : State) : Var → Value
  | Var.intAllocation => Value.int s.intAllocation
  | Var.dinnerForOne => Value.str s.dinnerForOne
  | Var.theAnswer => Value.int s.theAnswer
  | Var.partyLikeIts => Value.int s.partyLikeIts
  | Var.y2k => Value.int s.y2k
  | Var.yearWeMakeContact => Value.int s.yearWeMakeContact
  | Var.pointerToTheAnswer => Value.ptr s.pointerToTheAnswer

/-- The integer stored at the address of an integer variable (`*p` as a value). -/
def State.load (s : State) : IntVar → Int
  | IntVar.intAllocation => s.intAllocation
  | IntVar.theAnswer => s.theAnswer
  | IntVar.partyLikeIts => s.partyLikeIts
  | IntVar.y2k => s.y2k
  | IntVar.yearWeMakeContact => s.yearWeMakeContact

/-- Writing an integer to the address of an integer variable (`*p = n`). -/
def State.store (s : State) (n : Int) : IntVar → State
  | IntVar.intAllocation => { s with intAllocation := n }
  | IntVar.theAnswer => { s with theAnswer := n }
  | IntVar.partyLikeIts => { s with partyLikeIts := n }
  | IntVar.y2k => { s with y2k := n }
  | IntVar.yearWeMakeContact => { s with yearWeMakeContact := n }

/-- The run-time panics the program can raise. -/
inductive Panic where
  | nilDereference
  deriving DecidableEq, Repr

/-- How a call ends: it returns with a state, or it panics, in which case the
state at the moment of the panic is recorded. -/
inductive Outcome where
  | done (s : State)
  | panicked (p : Panic) (s : State)
  deriving DecidableEq, Repr

/-- The state a call ends in, whether it returned or panicked. -/
def Outcome.state : Outcome → State
  | Outcome.done s => s
  | Outcome.panicked _ s => s

/-- Sequencing: the next call runs only when the previous one returned. -/
def Outcome.andThen (o : Outcome) (f : State → Outcome) : Outcome :=
  match o with
  | Outcome.done s => f s
  | Outcome.panicked p s => Outcome.panicked p s

/-! ## `fmt.Println` -/

/-- The values guide.go keeps in local variables and passes to `fmt.Println`:
integers, strings and booleans. -/
inductive Scalar where
  | int (n : Int)
  | str (s : String)
  | bool (b : Bool)
  deriving DecidableEq, Repr

/-- The default format of an operand: decimal for an integer, the text of a
string, `true` or `false` for a boolean. -/
def Scalar.format : Scalar → String
  | Scalar.int n => toString n
  | Scalar.str s => s
  | Scalar.bool b => toString b

/-- The line `fmt.Println` writes: the operands in their default format,
separated by single spaces, followed by a newline. -/
def printlnText (operands : List Scalar) : String :=
  " ".intercalate (operands.map Scalar.format) ++ "\n"

/-- The call `fmt.Println(operands...)`: appends its line to standard output. -/
def Println (operands : List Scalar) (s : State) : State :=
  { s with stdout := s.stdout ++ printlnText operands }

/-! ## Local variables -/

/-- The local variables of one function body: each declared name once, with its
current value.  Parameters live in the same block as the locals of the body. -/
abbrev Frame := List (String × Scalar)

/-- Gives `name` the value `v`: an assignment when the block already declares
`name`, a new declaration otherwise. -/
def Frame.set : Frame → String → Scalar → Frame
  | [], name, v => [(name, v)]
  | (n, w) :: rest, name, v =>
    if n = name then (n, v) :: rest else (n, w) :: Frame.set rest name v

/-- The short-form declaration `a, b, ... := x, y, ...`: every name on the left
that the block already declares is assigned, every other name is declared. -/
def Frame.shortDecl (frame : Frame) (bindings : List (String × Scalar)) : Frame :=
  bindings.foldl (fun g b => Frame.set g b.1 b.2) frame

/-- The current value of a local variable, if the block declares it. -/
def Frame.get? (frame : Frame) (name : String) : Option Scalar :=
  frame.lookup name

/-- The operands of a call that passes the named locals, in order. -/
def Frame.operands (frame : Frame) (names : List String) : List Scalar :=
  names.filterMap frame.get?

/-! ## The functions of guide.go -/

/-- The locals of `setVariables` when it reaches its `fmt.Println` (guide.go 104-105). -/
def setVariablesLocals : Frame :=
  let frame : Frame := []
  let frame := frame.shortDecl [("anInteger", Scalar.int 42)]
  frame.shortDecl [("aString", Scalar.str "Thank you, Thing.")]

/-- The function `setVariables` (guide.go 103-108). -/
def setVariables (s : State) : Outcome :=
  Outcome.done (Println (setVariablesLocals.operands ["anInteger", "aString"]) s)

/-- The locals of `resetVariables` when it reaches its `fmt.Println`
(guide.go 116-118): the parameter, then the two short-form declarations. -/
def resetVariablesLocals (aParameter : String) : Frame :=
  let frame : Frame := [("aParameter", Scalar.str aParameter)]
  let frame := frame.shortDecl [("anInteger", Scalar.int 42)]
  frame.shortDecl
    [("aParameter", Scalar.str "None shall pass!"), ("anInteger", Scalar.int 2001),
     ("aNewVariable", Scalar.bool true)]

/-- The function `resetVariables` (guide.go 116-121). -/
def resetVariables (aParameter : String) (s : State) : Outcome :=
  Outcome.done
    (Println ((resetVariablesLocals aParameter).operands
      ["aParameter", "anInteger", "aNewVariable"]) s)

/-- The function `reserveDinner` (guide.go 127-129). -/
def reserveDinner (s : State) : Outcome :=
  Outcome.done { s with dinnerForOne := "Well, I'll do my very best." }

/-- The function `setTheAnswer` (guide.go 153-155): `pointerToTheAnswer = &theAnswer`. -/
def setTheAnswer (s : State) : Outcome :=
  Outcome.done { s with pointerToTheAnswer := some IntVar.theAnswer }

/-- The function `printTheAnswer` (guide.go 163-165).  The operand
`*pointerToTheAnswer` is evaluated before `fmt.Println` is called, and
dereferencing nil panics. -/
def printTheAnswer (s : State) : Outcome :=
  match s.pointerToTheAnswer with
  | none => Outcome.panicked Panic.nilDereference s
  | some target => Outcome.done (Println [Scalar.int (s.load target)] s)

/-- The function `changeTheAnswer` (guide.go 169-171): `*pointerToTheAnswer = 43`. -/
def changeTheAnswer (s : State) : Outcome :=
  match s.pointerToTheAnswer with
  | none => Outcome.panicked Panic.nilDereference s
  | some target => Outcome.done (s.store 43 target)

/-- The function `main` (guide.go 180-184). -/
def main (s : State) : Outcome :=
  let s := Println [Scalar.str "The Go application has started."] s
  let s := Println [Scalar.str "The Go application has finished."] s
  Outcome.done s

/-- The function `whoYouGonnaCall` (guide.go 188-202). -/
def whoYouGonnaCall (option : Int) : String := Id.run do
  let mut hero : String := ""
  if option = 1 then
    hero := "Ghostbusters"
  else if option = 2 then
    hero := "Ninja Turtles"
  else if option = 3 then
    hero := "Jem"
  else
    hero := "No hero selected"
  return hero

/-- The function `loadMovie` (guide.go 208-219): `movie` is the named result,
which starts as the empty string and is what the bare `return` returns. -/
def loadMovie (option : Int) : String := Id.run do
  let mut movie : String := ""
  if option = 1 then
    movie := "Toy Story"
  else if option = 2 then
    movie := "Dora The Explorer"
  else if option = 3 then
    movie := "Inside Out"
  else
    movie := "Apocalypse Now"
  return movie

/-- Running the program: package initialisation, then `main`. -/
def runProgram : Outcome := main initialState

/-! ## Calls in sequence -/

/-- A call of one of the functions of guide.go, with its arguments. -/
inductive Call where
  | setVariables
  | resetVariables (aParameter : String)
  | reserveDinner
  | setTheAnswer
  | printTheAnswer
  | changeTheAnswer
  | main
  | whoYouGonnaCall (option : Int)
  | loadMovie (option : Int)
  deriving DecidableEq, Repr

/-- The effect of one call on the state.  The two functions that only return a
string leave the state as it is. -/
def Call.exec : Call → State → Outcome
  | Call.setVariables, s => Guide.setVariables s
  | Call.resetVariables aParameter, s => Guide.resetVariables aParameter s
  | Call.reserveDinner, s => Guide.reserveDinner s
  | Call.setTheAnswer, s => Guide.setTheAnswer s
  | Call.printTheAnswer, s => Guide.printTheAnswer s
  | Call.changeTheAnswer, s => Guide.changeTheAnswer s
  | Call.main, s => Guide.main s
  | Call.whoYouGonnaCall _, s => Outcome.done s
  | Call.loadMovie _, s => Outcome.done s

/-- Runs the calls one after the other; a panic stops the run. -/
def runCalls : List Call → State → Outcome
  | [], s => Outcome.done s
  | c :: rest, s => (c.exec s).andThen (runCalls rest)

/-! ## Helper lemmas -/

theorem printlnText_single (x : Scalar) : printlnText [x] = x.format ++ "\n" := rfl

theorem store_pointer (s : State) (n : Int) (target : IntVar) :
    (s.store n target).pointerToTheAnswer = s.pointerToTheAnswer := by
  cases target <;> rfl

/-- Every call made while the pointer holds the address of `theAnswer` returns
and leaves the pointer as it is. -/
theorem exec_keeps_pointer (c : Call) (s : State)
    (h : s.pointerToTheAnswer = some IntVar.theAnswer) :
    ∃ s', c.exec s = Outcome.done s' ∧ s'.pointerToTheAnswer = some IntVar.theAnswer := by
  cases c with
  | setVariables => exact ⟨_, rfl, h⟩
  | resetVariables a => exact ⟨_, rfl, h⟩
  | reserveDinner => exact ⟨_, rfl, h⟩
  | setTheAnswer => exact ⟨_, rfl, rfl⟩
  | printTheAnswer =>
    refine ⟨Println [Scalar.int (s.load IntVar.theAnswer)] s, ?_, h⟩
    simp [Call.exec, printTheAnswer, h]
  | changeTheAnswer =>
    refine ⟨s.store 43 IntVar.theAnswer, ?_, ?_⟩
    · simp [Call.exec, changeTheAnswer, h]
    · rw [store_pointer]; exact h
  | main => exact ⟨_, rfl, h⟩
  | whoYouGonnaCall n => exact ⟨_, rfl, h⟩
  | loadMovie n => exact ⟨_, rfl, h⟩

/-- A run of calls started while the pointer holds the address of `theAnswer`
returns and ends with the pointer still holding it. -/
theorem runCalls_keeps_pointer (calls : List Call) (s : State)
    (h : s.pointerToTheAnswer = some IntVar.theAnswer) :
    ∃ s', runCalls calls s = Outcome.done s' ∧
      s'.pointerToTheAnswer = some IntVar.theAnswer := by
  induction calls generalizing s with
  | nil => exact ⟨s, rfl, h⟩
  | cons c rest ih =>
    obtain ⟨s₁, h₁, hp₁⟩ := exec_keeps_pointer c s h
    obtain ⟨s₂, h₂, hp₂⟩ := ih s₁ hp₁
    exact ⟨s₂, by simp [runCalls, h₁, Outcome.andThen, h₂], hp₂⟩

/-! ## The entry point -/

/-- C1: running `main` from the initial program state returns without a panic,
and standard output then holds exactly the two lines "The Go application has
started." and "The Go application has finished.", in this order, each ended by
a newline, and nothing else. -/
theorem main_prints_two_lines :
    runProgram = main initialState ∧
    (∃ s, main initialState = Outcome.done s ∧
      s.stdout = "The Go application has started.\nThe Go application has finished.\n") ∧
    (∀ p s, main initialState ≠ Outcome.panicked p s) := by
  refine ⟨rfl, ⟨_, rfl, by decide⟩, ?_⟩
  intro p s h
  simp [main] at h

/-- C4: `main` changes nothing but standard output.  From every state it returns
without a panic (so no nil pointer was dereferenced) and every package-level
variable holds the value it held before; from the initial state `dinnerForOne`
is still "The same procedure as every year", `theAnswer` is still 42 and
`pointerToTheAnswer` is still nil. -/
theorem main_changes_no_variable :
    (∀ s : State, main s =
      Outcome.done { s with stdout := s.stdout ++
        "The Go application has started.\nThe Go application has finished.\n" }) ∧
    (∃ s, main initialState = Outcome.done s ∧
      (∀ v : Var, s.read v = initialState.read v) ∧
      s.dinnerForOne = "The same procedure as every year" ∧
      s.theAnswer = 42 ∧
      s.pointerToTheAnswer = none ∧
      s.read Var.pointerToTheAnswer = Value.nil) := by
  refine ⟨?_, ⟨_, rfl, ?_, rfl, rfl, rfl, rfl⟩⟩
  · intro s
    simp only [main, Println, printlnText_single, Scalar.format]
    congr 2
    rw [String.append_assoc, String.append_assoc]
    rfl
  · intro v
    cases v <;> rfl

/-! ## The two functions that pick a string -/

/-- C2: `whoYouGonnaCall` returns "Ghostbusters" for 1, "Ninja Turtles" for 2,
"Jem" for 3 and "No hero selected" for every other integer, 0 and the negative
integers included; the result is always one of these four strings and never the
empty string `hero` starts with. -/
theorem whoYouGonnaCall_spec (option : Int) :
    whoYouGonnaCall 1 = "Ghostbusters" ∧
    whoYouGonnaCall 2 = "Ninja Turtles" ∧
    whoYouGonnaCall 3 = "Jem" ∧
    (option ≠ 1 ∧ option ≠ 2 ∧ option ≠ 3 → whoYouGonnaCall option = "No hero selected") ∧
    whoYouGonnaCall 0 = "No hero selected" ∧
    (option < 0 → whoYouGonnaCall option = "No hero selected") ∧
    whoYouGonnaCall option ∈ ["Ghostbusters", "Ninja Turtles", "Jem", "No hero selected"] ∧
    whoYouGonnaCall option ≠ "" := by
  have h123 : whoYouGonnaCall 1 = "Ghostbusters" ∧ whoYouGonnaCall 2 = "Ninja Turtles" ∧
      whoYouGonnaCall 3 = "Jem" ∧ whoYouGonnaCall 0 = "No hero selected" := by decide
  have hother : option ≠ 1 ∧ option ≠ 2 ∧ option ≠ 3 →
      whoYouGonnaCall option = "No hero selected" := by
    rintro ⟨h1, h2, h3⟩
    simp [whoYouGonnaCall, Id.run, h1, h2, h3]
  refine ⟨h123.1, h123.2.1, h123.2.2.1, hother, h123.2.2.2, ?_, ?_, ?_⟩
  · intro hneg
    exact hother ⟨by omega, by omega, by omega⟩
  · by_cases h1 : option = 1
    · subst h1; simp [h123.1]
    by_cases h2 : option = 2
    · subst h2; simp [h123.2.1]
    by_cases h3 : option = 3
    · subst h3; simp [h123.2.2.1]
    simp [hother ⟨h1, h2, h3⟩]
  · by_cases h1 : option = 1
    · subst h1; rw [h123.1]; decide
    by_cases h2 : option = 2
    · subst h2; rw [h123.2.1]; decide
    by_cases h3 : option = 3
    · subst h3; rw [h123.2.2.1]; decide
    rw [hother ⟨h1, h2, h3⟩]; decide

/-- C3: `loadMovie` returns, through its named result, "Toy Story" for 1,
"Dora The Explorer" for 2, "Inside Out" for 3 and "Apocalypse Now" for every
other integer; the named result is always assigned, so the empty string it
starts with is never returned. -/
theorem loadMovie_spec (option : Int) :
    loadMovie 1 = "Toy Story" ∧
    loadMovie 2 = "Dora The Explorer" ∧
    loadMovie 3 = "Inside Out" ∧
    (option ≠ 1 ∧ option ≠ 2 ∧ option ≠ 3 → loadMovie option = "Apocalypse Now") ∧
    loadMovie option ∈ ["Toy Story", "Dora The Explorer", "Inside Out", "Apocalypse Now"] ∧
    loadMovie option ≠ "" := by
  have h123 : loadMovie 1 = "Toy Story" ∧ loadMovie 2 = "Dora The Explorer" ∧
      loadMovie 3 = "Inside Out" := by decide
  have hother : option ≠ 1 ∧ option ≠ 2 ∧ option ≠ 3 →
      loadMovie option = "Apocalypse Now" := by
    rintro ⟨h1, h2, h3⟩
    simp [loadMovie, Id.run, h1, h2, h3]
  refine ⟨h123.1, h123.2.1, h123.2.2, hother, ?_, ?_⟩
  · by_cases h1 : option = 1
    · subst h1; simp [h123.1]
    by_cases h2 : option = 2
    · subst h2; simp [h123.2.1]
    by_cases h3 : option = 3
    · subst h3; simp [h123.2.2]
    simp [hother ⟨h1, h2, h3⟩]
  · by_cases h1 : option = 1
    · subst h1; rw [h123.1]; decide
    by_cases h2 : option = 2
    · subst h2; rw [h123.2.1]; decide
    by_cases h3 : option = 3
    · subst h3; rw [h123.2.2]; decide
    rw [hother ⟨h1, h2, h3⟩]; decide

/-! ## Declarations without an initialiser -/

/-- C6, evaluated at the initial program state: the source comment
(guide.go 84-87) says that a variable declared without a value defaults to nil,
but `intAllocation`, declared `var intAllocation int` with no initialiser, holds
0, the zero value of `int`, and not nil; of the package-level variables only
the pointer `pointerToTheAnswer` starts as nil. -/
theorem intAllocation_is_zero_not_nil :
    Var.type Var.intAllocation = GoType.int ∧
    initialState.intAllocation = 0 ∧
    initialState.read Var.intAllocation = Value.int 0 ∧
    initialState.read Var.intAllocation = zeroValue (Var.type Var.intAllocation) ∧
    ¬ (initialState.read Var.intAllocation = Value.nil) ∧
    (∀ v : Var, initialState.read v = Value.nil ↔ v = Var.pointerToTheAnswer) := by
  refine ⟨rfl, rfl, rfl, rfl, by decide, ?_⟩
  intro v
  cases v <;> decide

/-! ## The pointer -/

/-- C5: in every state where `pointerToTheAnswer` is nil, `printTheAnswer`
panics with a nil dereference and has printed nothing, and `changeTheAnswer`
panics with a nil dereference and leaves `theAnswer` (and the rest of the
state) unchanged.  The initial program state is such a state. -/
theorem nil_dereference_panics (s : State) (h : s.pointerToTheAnswer = none) :
    printTheAnswer s = Outcome.panicked Panic.nilDereference s ∧
    (printTheAnswer s).state.stdout = s.stdout ∧
    changeTheAnswer s = Outcome.panicked Panic.nilDereference s ∧
    (changeTheAnswer s).state.theAnswer = s.theAnswer ∧
    initialState.pointerToTheAnswer = none := by
  have hp : printTheAnswer s = Outcome.panicked Panic.nilDereference s := by
    simp [printTheAnswer, h]
  have hc : changeTheAnswer s = Outcome.panicked Panic.nilDereference s := by
    simp [changeTheAnswer, h]
  exact ⟨hp, by rw [hp]; rfl, hc, by rw [hc]; rfl, rfl⟩

/-- C5 at the initial program state, where the pointer is nil: both functions
panic, nothing is printed and `theAnswer` stays 42. -/
theorem nil_dereference_panics_initially :
    initialState.pointerToTheAnswer = none ∧
    printTheAnswer initialState = Outcome.panicked Panic.nilDereference initialState ∧
    (printTheAnswer initialState).state.stdout = "" ∧
    changeTheAnswer initialState = Outcome.panicked Panic.nilDereference initialState ∧
    (changeTheAnswer initialState).state.theAnswer = 42 :=
  have h := nil_dereference_panics initialState rfl
  ⟨rfl, h.1, h.2.1, h.2.2.1, h.2.2.2.1⟩

/-- C7: after `setTheAnswer` then `changeTheAnswer`, from any state, the write
through the pointer is visible in `theAnswer`, which is 43 (it is 42 in the
initial state); a following `printTheAnswer` prints the line "43";
`dinnerForOne` and `intAllocation` are unchanged. -/
theorem change_through_pointer_is_visible (s : State) :
    initialState.theAnswer = 42 ∧
    (setTheAnswer s).andThen changeTheAnswer =
      Outcome.done { s with pointerToTheAnswer := some IntVar.theAnswer, theAnswer := 43 } ∧
    (∃ s', (setTheAnswer s).andThen changeTheAnswer = Outcome.done s' ∧
      s'.theAnswer = 43 ∧
      s'.dinnerForOne = s.dinnerForOne ∧
      s'.intAllocation = s.intAllocation ∧
      printTheAnswer s' = Outcome.done { s' with stdout := s'.stdout ++ "43\n" }) ∧
    runCalls [Call.setTheAnswer, Call.changeTheAnswer, Call.printTheAnswer] initialState =
      Outcome.done { initialState with
        pointerToTheAnswer := some IntVar.theAnswer, theAnswer := 43, stdout := "43\n" } := by
  refine ⟨rfl, rfl, ⟨_, rfl, rfl, rfl, rfl, rfl⟩, by decide⟩

/-- C8: in every state reached by a run of calls that starts with
`setTheAnswer`, from any state and whatever calls follow, the run has not
panicked, `pointerToTheAnswer` is non-nil and holds the address of `theAnswer`,
and `printTheAnswer` returns after printing the current value of `theAnswer` on
a line of its own; `setTheAnswer` then `printTheAnswer` from the initial state
prints the line "42". -/
theorem pointer_set_stays_set (s : State) (calls : List Call) :
    (∃ s', runCalls (Call.setTheAnswer :: calls) s = Outcome.done s' ∧
      s'.pointerToTheAnswer ≠ none ∧
      s'.pointerToTheAnswer = some IntVar.theAnswer ∧
      printTheAnswer s' =
        Outcome.done { s' with stdout := s'.stdout ++ (toString s'.theAnswer ++ "\n") }) ∧
    runCalls [Call.setTheAnswer, Call.printTheAnswer] initialState =
      Outcome.done { initialState with
        pointerToTheAnswer := some IntVar.theAnswer, stdout := "42\n" } := by
  refine ⟨?_, by decide⟩
  obtain ⟨s', hrun, hp⟩ :=
    runCalls_keeps_pointer calls { s with pointerToTheAnswer := some IntVar.theAnswer } rfl
  refine ⟨s', ?_, ?_, hp, ?_⟩
  · simpa [runCalls, Call.exec, setTheAnswer, Outcome.andThen] using hrun
  · rw [hp]; simp
  · simp [printTheAnswer, hp, Println, printlnText_single, Scalar.format, State.load]

/-! ## Re-declaration -/

/-- C9: for every argument and from every state, `resetVariables` returns after
printing exactly the line "None shall pass! 2001 true" and changes no
package-level variable.  The second short-form declaration assigns to the
parameter and to the earlier `anInteger`: the block ends with one variable of
each name, holding the new values.  The printed line is the same for all
arguments and does not contain "42". -/
theorem resetVariables_prints_fixed_line (aParameter : String) (s : State) :
    resetVariables aParameter s =
      Outcome.done { s with stdout := s.stdout ++ "None shall pass! 2001 true\n" } ∧
    resetVariablesLocals aParameter =
      [("aParameter", Scalar.str "None shall pass!"), ("anInteger", Scalar.int 2001),
       ("aNewVariable", Scalar.bool true)] ∧
    (∀ other : String, resetVariables other s = resetVariables aParameter s) ∧
    (∀ v : Var, (resetVariables aParameter s).state.read v = s.read v) ∧
    ¬ ("42".toList <:+: "None shall pass! 2001 true\n".toList) := by
  have hlocals : ∀ a : String, resetVariablesLocals a =
      [("aParameter", Scalar.str "None shall pass!"), ("anInteger", Scalar.int 2001),
       ("aNewVariable", Scalar.bool true)] := by
    intro a
    simp [resetVariablesLocals, Frame.shortDecl, Frame.set]
  have hrun : ∀ a : String, resetVariables a s =
      Outcome.done { s with stdout := s.stdout ++ "None shall pass! 2001 true\n" } := by
    intro a
    simp only [resetVariables, hlocals a]
    rfl
  refine ⟨hrun aParameter, hlocals aParameter, ?_, ?_, by decide⟩
  · intro other
    rw [hrun other, hrun aParameter]
  · intro v
    rw [hrun aParameter]
    cases v <;> rfl

end Guide
